import Mathlib

/-
Verification development for the space-video-server repository.

Embedded components (from the JavaScript sources):
  * pipeline.js  (class SpacePipeline): makeHttpRequest, collectNews,
    generateScript, collectMedia, generateTTS, produceVideo, runPipeline,
    validateEnvironment.  The repository carries two near-duplicate copies of
    this file; the embedding follows the later copy (the one with the 30s
    request timeout, rejection of status >= 400, the simulated-news fallback
    set and the five-item media padding), which is the copy the rest of the
    system is written against.
  * scheduler.js (class VideoScheduler): getLastRunInfo, shouldRunNow,
    saveLastRun, runScheduledVideoGeneration.

Modelling conventions:
  * JS strings are embedded as List Char where character-level operations
    matter (the narration script and its word count) and as String elsewhere.
  * JS numbers are embedded as Nat / Int / exact rationals.
  * ISO timestamp strings are embedded as their epoch-millisecond values,
    since the code only ever compares them through new Date(..) arithmetic.
  * Network effects are embedded as explicit wire-outcome inputs; a promise
    rejection becomes an Except.error value.
  * Math.random choices (intro/outro selection) are explicit Fin 3 inputs.
-/

set_option maxRecDepth 100000

/-- JS `String.prototype.split(' ')` on a character list: fields separated at
each single space character; consecutive spaces yield empty fields, exactly as
in JS. Auxiliary accumulator form. -/
def splitOnSpaceAux : List Char → List Char → List (List Char)
  | [], acc => [acc.reverse]
  | c :: rest, acc =>
    if c = ' ' then acc.reverse :: splitOnSpaceAux rest []
    else splitOnSpaceAux rest (c :: acc)

/-- JS `s.split(' ')`. -/
def splitOnSpace (s : List Char) : List (List Char) := splitOnSpaceAux s []

/-- Spec-side definition (from the spec words, not the code): the number of
whitespace-delimited tokens of a text, i.e. the number of maximal runs of
non-whitespace characters. Used to compare the code's word count against the
spec's description of it. Auxiliary form carrying an inside-a-token flag. -/
def wsTokensAux : List Char → Bool → Nat
  | [], _ => 0
  | c :: rest, inWord =>
    if c.isWhitespace then wsTokensAux rest false
    else (if inWord then 0 else 1) + wsTokensAux rest true

/-- Spec-side definition: number of whitespace-delimited tokens. -/
def wsTokenCount (s : List Char) : Nat := wsTokensAux s false

/-- JS `Math.round` on an exact rational: round half toward positive infinity. -/
def jsRound (q : ℚ) : ℤ := ⌊q + 1 / 2⌋

/-- JS `Math.round(x * 10) / 10`: round to one decimal place. -/
def round1 (q : ℚ) : ℚ := (jsRound (q * 10) : ℚ) / 10

/-- Article record produced by the news stage (title/source/url as character
lists, published as the epoch-millisecond value of the date). -/
structure Article where
  title : List Char
  source : List Char
  published : Int
  url : List Char

/-- Stable insertion used to model `allArticles.sort((a, b) => new
Date(b.published) - new Date(a.published))`: descending by published time. -/
def insertByPublishedDesc (x : Article) : List Article → List Article
  | [] => [x]
  | y :: ys =>
    if y.published < x.published then x :: y :: ys
    else y :: insertByPublishedDesc x ys

/-- Sort a list of articles by published time, descending. -/
def sortByPublishedDesc : List Article → List Article
  | [] => []
  | x :: xs => insertByPublishedDesc x (sortByPublishedDesc xs)

/-- The list is sorted descending by published time (each element's published
time is at most its predecessor's). -/
def SortedByPublishedDesc : List Article → Prop
  | [] => True
  | [_] => True
  | x :: y :: rest => y.published ≤ x.published ∧ SortedByPublishedDesc (y :: rest)

/-- The three intro lines of generateScript, selected by Math.random. -/
def intros : Fin 3 → List Char
  | 0 => ("Welcome to Space News Today! Here are the latest developments in space exploration.").toList
  | 1 => ("Greetings, space enthusiasts! Let\x27s dive into today\x27s cosmic updates.").toList
  | 2 => ("Get ready for another incredible journey through the latest space discoveries!").toList

/-- The three outro lines of generateScript, selected by Math.random. -/
def outros : Fin 3 → List Char
  | 0 => ("That\x27s all for today\x27s space news. Stay curious, and keep looking up!").toList
  | 1 => ("Thanks for joining us on this cosmic journey. Until next time!").toList
  | 2 => ("Keep exploring the wonders of the universe. See you next time!").toList

/-- The fixed three-sentence filler passage appended when the article list is
empty. -/
def emptyArticlesFiller : List Char :=
  ("Today we\x27re exploring the fascinating world of space exploration. ").toList
    ++ ("From distant galaxies to Mars missions, the universe continues to amaze us. ").toList
    ++ ("Space agencies around the world are pushing the boundaries of human knowledge. ").toList

/-- One per-article passage: `Story ${index + 1}: ${title}. This update comes
from ${source}. ` followed by a blank line. -/
def storyLine (index : Nat) (a : Article) : List Char :=
  ("Story ").toList ++ (Nat.repr (index + 1)).toList ++ (": ").toList
    ++ a.title ++ (". ").toList
    ++ ("This update comes from ").toList ++ a.source ++ (". ").toList
    ++ ("\n\n").toList

/-- The forEach loop of generateScript over the article list, threading the
running index. -/
def storiesText (index : Nat) : List Article → List Char
  | [] => []
  | a :: rest => storyLine index a ++ storiesText (index + 1) rest

/-- Details recorded by the Script Generation step log. -/
structure ScriptDetails where
  word_count : Nat
  estimated_duration_seconds : ℚ
  segments : Nat

/-- Per-stage detail mappings of the step logs (one constructor per stage). -/
inductive StepDetails where
  | env (configured_keys missing_keys : Nat)
  | news (articles_collected : Nat)
  | script (d : ScriptDetails)
  | media (total_images pexels_count simulated_count : Nat)
  | tts (duration_seconds : ℚ) (api_called : Bool)
  | video (images_used : Nat)
  | pipelineError (message : String)

/-- One entry of the run log, as pushed by logStep (timestamps omitted: the
claims under verification do not constrain them). -/
structure StepLog where
  step : String
  success : Bool
  details : StepDetails

/-- Result of the script stage: the script text, the detail record and the
step-log entries appended by the stage. -/
structure ScriptResult where
  script : List Char
  details : ScriptDetails
  logs : List StepLog

/-- generateScript from pipeline.js: templates intro + one passage per article
(or the fixed filler when the list is empty) + outro; computes `wordCount =
script.split(' ').length` and `estimatedDuration = wordCount / 150 * 60`; the
logged duration detail is rounded to one decimal. Appends exactly one
successful step log. -/
def generateScript (articles : List Article) (introIdx outroIdx : Fin 3) : ScriptResult :=
  let script := intros introIdx ++ ("\n\n").toList
      ++ (if articles.isEmpty then emptyArticlesFiller else storiesText 0 articles)
      ++ outros outroIdx
  let wordCount := (splitOnSpace script).length
  let estimatedDuration : ℚ := (wordCount : ℚ) / 150 * 60
  let details : ScriptDetails :=
    { word_count := wordCount
      estimated_duration_seconds := round1 estimatedDuration
      segments := articles.length }
  { script := script
    details := details
    logs := [{ step := "Script Generation", success := true, details := .script details }] }

/-- The distinct failure modes of makeHttpRequest (the code rejects with plain
Error values carrying these messages; the spec taxonomy names them
NetworkError / TimeoutError / ResponseError). -/
inductive HttpFailure where
  | requestError (message : String)
  | timeoutError
  | invalidStatus
  | responseError (status : Nat) (statusMessage : String)

/-- What the network hands back for one request, with the body already in its
best-effort decoded form `α` (JSON.parse output, or the raw text embedded in
`α` by the caller-specific body type). -/
inductive WireOutcome (α : Type) where
  | requestError (message : String)
  | timeout
  | noStatus (body : α)
  | response (status : Nat) (statusMessage : String) (body : α)

/-- Successful resolution value of makeHttpRequest. -/
structure HttpResult (α : Type) where
  status : Nat
  data : α

/-- The fixed request timeout budget of makeHttpRequest, in milliseconds. -/
def requestTimeoutMs : Nat := 30000

/-- makeHttpRequest from pipeline.js (later copy): rejects on connection
errors, on timeout, on a missing status code, and on any status >= 400;
otherwise resolves with the status and the decoded (or raw) body. -/
def makeHttpRequest {α : Type} (wire : WireOutcome α) : Except HttpFailure (HttpResult α) :=
  match wire with
  | .requestError m => .error (.requestError m)
  | .timeout => .error .timeoutError
  | .noStatus _ => .error .invalidStatus
  | .response status statusMessage body =>
    if 400 ≤ status then .error (.responseError status statusMessage)
    else .ok { status := status, data := body }

/-- One record of the Flask news payload's data array; absent JS fields are
`none` (the code substitutes defaults with `||`). -/
structure NewsItem where
  headline_title : Option (List Char)
  source : Option (List Char)
  published : Option Int
  url : Option (List Char)

/-- Decoded body shape for the scrape-news request: `payloadStatus` models
`response.data.status` (none when the body is not an object carrying a status
field) and `items` models `response.data.data || []`. -/
structure NewsBody where
  payloadStatus : Option String
  items : List NewsItem

/-- Result of the news stage. -/
structure NewsResult where
  articles : List Article
  logs : List StepLog

/-- The fixed fallback article set of collectNews; each entry's published time
is the current time. -/
def fallbackNews (now : Int) : List Article :=
  [ { title := ("NASA Artemis Mission Achieves Major Milestone").toList
      source := ("NASA News").toList
      published := now
      url := ("https://www.nasa.gov/artemis").toList }
  , { title := ("SpaceX Launches Advanced Satellite Constellation").toList
      source := ("Space News").toList
      published := now
      url := ("https://www.spacex.com").toList }
  , { title := ("James Webb Telescope Discovers Distant Galaxy").toList
      source := ("ESA Updates").toList
      published := now
      url := ("https://www.esa.int").toList } ]

/-- The fallback path of collectNews: sort the fixed set, log success, return
the first five. -/
def fallbackNewsResult (now : Int) : NewsResult :=
  let allArticles := sortByPublishedDesc (fallbackNews now)
  { articles := allArticles.take 5
    logs := [{ step := "News Collection", success := true, details := .news allArticles.length }] }

/-- collectNews from pipeline.js (later copy): requests the Flask service;
on a resolved 200 response whose payload status is "success" it converts,
sorts descending by published time and returns the first five; on any
rejection, or any other resolved response, it substitutes the fixed fallback
set. The step log records success either way. -/
def collectNews (wire : WireOutcome NewsBody) (now : Int) : NewsResult :=
  match makeHttpRequest wire with
  | .ok res =>
    if res.status = 200 ∧ res.data.payloadStatus = some "success" then
      let allArticles := sortByPublishedDesc (res.data.items.map fun it =>
        { title := it.headline_title.getD ("Unknown Title").toList
          source := it.source.getD ("Unknown Source").toList
          published := it.published.getD now
          url := it.url.getD [] })
      { articles := allArticles.take 5
        logs := [{ step := "News Collection", success := true, details := .news allArticles.length }] }
    else fallbackNewsResult now
  | .error _ => fallbackNewsResult now

/-- One record of the Pexels response.data.photos array. -/
structure Photo where
  src_large : List Char
  photographer : List Char
  alt : Option (List Char)

/-- Decoded body shape of the Pexels search request: `photos` is none when the
decoded body carries no photos field. -/
structure PexelsBody where
  photos : Option (List Photo)

/-- Media item as accumulated by collectMedia. -/
structure MediaItem where
  url : List Char
  source : String
  type : String
  photographer : List Char
  alt : List Char

/-- Result of the media stage. -/
structure MediaResult where
  items : List MediaItem
  logs : List StepLog

/-- Conversion of a Pexels photo into a media item (source marker "pexels"). -/
def pexelsItem (p : Photo) : MediaItem :=
  { url := p.src_large
    source := "pexels"
    type := "image"
    photographer := p.photographer
    alt := p.alt.getD ("Space image").toList }

/-- The five curated fallback image URLs of collectMedia. -/
def simulatedImages : List (List Char) :=
  [ ("https://images.pexels.com/photos/2150/sky-space-dark-galaxy.jpg").toList
  , ("https://images.pexels.com/photos/39649/space-cosmos-universe-galaxy-39649.jpeg").toList
  , ("https://images.pexels.com/photos/73873/rocket-launch-rocket-take-off-nasa-73873.jpeg").toList
  , ("https://images.pexels.com/photos/87009/earth-soil-creep-moon-lunar-surface-87009.jpeg").toList
  , ("https://images.pexels.com/photos/23769/pexels-photo-23769.jpg").toList ]

/-- One padding item: source marker "curated" when some real media was
collected, "simulated" otherwise. -/
def curatedItem (realMediaCollected : Bool) (index : Nat) (url : List Char) : MediaItem :=
  { url := url
    source := if realMediaCollected then "curated" else "simulated"
    type := "image"
    photographer := if realMediaCollected then ("Curated").toList else ("Simulated Data").toList
    alt := ("Space image ").toList ++ (Nat.repr (index + 1)).toList }

/-- The forEach push of the padding items, threading the running index. -/
def paddingItems (realMediaCollected : Bool) (index : Nat) : List (List Char) → List MediaItem
  | [] => []
  | u :: us => curatedItem realMediaCollected index u :: paddingItems realMediaCollected (index + 1) us

/-- The Pexels attempt of collectMedia: collected real items and the
realMediaCollected flag. The guard mirrors the code: an API key must be
present, the request must resolve with status 200 and the body must carry a
photos field; any rejection is swallowed. -/
def pexelsAttempt (pexelsKeyPresent : Bool) (wire : WireOutcome PexelsBody) :
    List MediaItem × Bool :=
  if pexelsKeyPresent then
    match makeHttpRequest wire with
    | .ok res =>
      if res.status = 200 then
        match res.data.photos with
        | some ps => (ps.map pexelsItem, true)
        | none => ([], false)
      else ([], false)
    | .error _ => ([], false)
  else ([], false)

/-- The padding-and-log tail of collectMedia, applied to the Pexels attempt:
when fewer than five items were collected the full fixed fallback list is
appended; the step log records success. -/
def collectMediaCore (real : List MediaItem × Bool) : MediaResult :=
  let realItems := real.1
  let realMediaCollected := real.2
  let mediaItems :=
    if realItems.length < 5 then
      realItems ++ paddingItems realMediaCollected 0 simulatedImages
    else realItems
  { items := mediaItems
    logs := [{ step := "Media Collection", success := true
               details := .media mediaItems.length
                 ((mediaItems.filter fun x => x.source == "pexels").length)
                 ((mediaItems.filter fun x => x.source == "simulated" || x.source == "curated").length) }] }

/-- collectMedia from pipeline.js (later copy). -/
def collectMedia (pexelsKeyPresent : Bool) (wire : WireOutcome PexelsBody) : MediaResult :=
  collectMediaCore (pexelsAttempt pexelsKeyPresent wire)

/-- Result of the TTS stage (a simulated stub: no real synthesis occurs). -/
structure TTSResult where
  audio_file : String
  duration : ℚ
  logs : List StepLog

/-- generateTTS from pipeline.js: recomputes the word count of the script and
derives the estimated duration at 150 words per minute; api_called is true
exactly when a TTS credential is configured. -/
def generateTTS (script : List Char) (ttsKeyPresent : Bool) : TTSResult :=
  let wordCount := (splitOnSpace script).length
  let estimatedDuration : ℚ := (wordCount : ℚ) / 150 * 60
  { audio_file := "output/narration.mp3"
    duration := estimatedDuration
    logs := [{ step := "TTS Generation", success := true
               details := .tts (round1 estimatedDuration) ttsKeyPresent }] }

/-- Result of the video production stage (a stub with fixed outputs). -/
structure VideoResult where
  video_file : String
  video_url : String
  duration : ℚ
  logs : List StepLog

/-- produceVideo from pipeline.js: the video duration is the audio duration;
output path and URL are fixed constants. -/
def produceVideo (media : List MediaItem) (audioDuration : ℚ) : VideoResult :=
  { video_file := "output/space_news_video.mp4"
    video_url := "https://example.com/space_news_video.mp4"
    duration := audioDuration
    logs := [{ step := "Video Production", success := true, details := .video media.length }] }

/-- Configuration-presence flags for the three required credentials; true
models a key that is set and free of the placeholder markers. -/
structure EnvConfig where
  ttsConfigured : Bool
  pexelsConfigured : Bool
  unsplashConfigured : Bool

/-- validateEnvironment from pipeline.js: counts configured and missing
required keys; the step succeeds exactly when nothing is missing. -/
def validateEnvironment (env : EnvConfig) : Bool × StepLog :=
  let configured := [env.ttsConfigured, env.pexelsConfigured, env.unsplashConfigured].count true
  let missing := 3 - configured
  let success := missing == 0
  (success, { step := "Environment Validation", success := success
              details := .env configured missing })

/-- The final_outputs mapping assembled on the success path of runPipeline. -/
structure FinalOutputs where
  script : List Char
  media_count : Nat
  audio_duration : ℚ
  video_file : String
  video_url : String

/-- The RunRecord accumulated by one orchestrator execution (this.results). -/
structure RunRecord where
  workflow_id : String
  start_time : Int
  steps : List StepLog
  status : String
  end_time : Option Int
  total_duration_seconds : Option ℚ
  final_outputs : Option FinalOutputs
  error : Option String

/-- Injected unexpected-error slots, one per stage, modelling a stage raising
an error that its own fallback logic does not handle (a programming fault or
an environmental fault below the level of the modelled network inputs);
`some m` means the stage throws an Error with message m. -/
structure Faults where
  envFault : Option String
  newsFault : Option String
  scriptFault : Option String
  mediaFault : Option String
  ttsFault : Option String
  videoFault : Option String

/-- The first injected fault in stage order, if any: the error that reaches
the orchestrator's catch block. -/
def firstFault (f : Faults) : Option String :=
  match f.envFault with
  | some m => some m
  | none =>
    match f.newsFault with
    | some m => some m
    | none =>
      match f.scriptFault with
      | some m => some m
      | none =>
        match f.mediaFault with
        | some m => some m
        | none =>
          match f.ttsFault with
          | some m => some m
          | none => f.videoFault

/-- Everything one runPipeline execution consumes from its surroundings. -/
structure PipelineInput where
  env : EnvConfig
  newsWire : WireOutcome NewsBody
  pexelsKeyPresent : Bool
  pexelsWire : WireOutcome PexelsBody
  ttsKeyPresent : Bool
  introIdx : Fin 3
  outroIdx : Fin 3
  now : Int
  startTime : Int
  endTime : Int
  faults : Faults

/-- Observable outcome of one runPipeline execution: the final RunRecord, the
contents persisted to pipeline_results.json (none when never written), and the
normal return value or re-raised error. -/
structure PipelineResult where
  record : RunRecord
  persisted : Option RunRecord
  outcome : Except String RunRecord

/-- The catch block of runPipeline: mark the record failed, store the error
message, log the failed Pipeline Execution step, persist the partial record,
and re-raise the error. -/
def failRun (r : RunRecord) (message : String) : PipelineResult :=
  let rFailed := { r with
    status := "failed"
    error := some message
    steps := r.steps ++ [{ step := "Pipeline Execution", success := false
                           details := .pipelineError message }] }
  { record := rFailed, persisted := some rFailed, outcome := .error message }

/-- runPipeline from pipeline.js (later copy), for the full-pipeline path
(the --health-check early return performs no status transition and is not
modelled). Stages run in the fixed order environment, news, script, media,
TTS, video; injected faults abort via the catch block; on success the record
is completed, final_outputs assembled and the record persisted. -/
def runPipeline (inp : PipelineInput) : PipelineResult :=
  let r0 : RunRecord :=
    { workflow_id := "workflow_" ++ toString inp.startTime
      start_time := inp.startTime
      steps := []
      status := "running"
      end_time := none
      total_duration_seconds := none
      final_outputs := none
      error := none }
  match inp.faults.envFault with
  | some m => failRun r0 m
  | none =>
    let envStep := validateEnvironment inp.env
    let r1 := { r0 with steps := r0.steps ++ [envStep.2] }
    match inp.faults.newsFault with
    | some m => failRun r1 m
    | none =>
      let news := collectNews inp.newsWire inp.now
      let r2 := { r1 with steps := r1.steps ++ news.logs }
      match inp.faults.scriptFault with
      | some m => failRun r2 m
      | none =>
        let scriptRes := generateScript news.articles inp.introIdx inp.outroIdx
        let r3 := { r2 with steps := r2.steps ++ scriptRes.logs }
        match inp.faults.mediaFault with
        | some m => failRun r3 m
        | none =>
          let media := collectMedia inp.pexelsKeyPresent inp.pexelsWire
          let r4 := { r3 with steps := r3.steps ++ media.logs }
          match inp.faults.ttsFault with
          | some m => failRun r4 m
          | none =>
            let audio := generateTTS scriptRes.script inp.ttsKeyPresent
            let r5 := { r4 with steps := r4.steps ++ audio.logs }
            match inp.faults.videoFault with
            | some m => failRun r5 m
            | none =>
              let video := produceVideo media.items audio.duration
              let r6 := { r5 with steps := r5.steps ++ video.logs }
              let duration : ℚ := ((inp.endTime - inp.startTime : ℤ) : ℚ) / 1000
              let rFinal := { r6 with
                status := "completed"
                end_time := some inp.endTime
                total_duration_seconds := some duration
                final_outputs := some
                  { script := scriptRes.script
                    media_count := media.items.length
                    audio_duration := audio.duration
                    video_file := video.video_file
                    video_url := video.video_url } }
              { record := rFinal, persisted := some rFinal, outcome := .ok rFinal }

/-- The LastRunRecord of the scheduler's last_run.json state file. -/
structure LastRun where
  timestamp : Int
  status : String
  duration : Option ℚ
  video_url : Option String

/-- The fixed scheduler cooldown window, in milliseconds. -/
def twoHoursMs : Int := 2 * 60 * 60 * 1000

/-- getLastRunInfo from scheduler.js: the try/catch around readFileSync and
JSON.parse; the input is .error whenever the state file is missing,
unreadable, or its contents fail to parse, and any such failure yields null
rather than an exception. -/
def getLastRunInfo (readAndParse : Except String LastRun) : Option LastRun :=
  match readAndParse with
  | .error _ => none
  | .ok info => some info

/-- shouldRunNow from scheduler.js: skip (return false) exactly when a
previous record exists, its status is completed, and less than two hours have
elapsed since its timestamp. -/
def shouldRunNow (lastRun : Option LastRun) (now : Int) : Bool :=
  match lastRun with
  | none => true
  | some lr =>
    let timeSinceLast := now - lr.timestamp
    if timeSinceLast < twoHoursMs ∧ lr.status = "completed" then false else true

/-- saveLastRun from scheduler.js: the LastRunRecord written after a run, from
the pipeline's returned results. -/
def saveLastRun (results : RunRecord) (now : Int) : LastRun :=
  { timestamp := now
    status := results.status
    duration := results.total_duration_seconds
    video_url := results.final_outputs.map fun o => o.video_url }

/-- runScheduledVideoGeneration from scheduler.js: gate on shouldRunNow, run
the pipeline, and save the last-run record only when runPipeline returns
normally — the catch block merely logs, so a rejected run writes nothing.
The value returned is the new content of last_run.json (none: untouched). -/
def runScheduledVideoGeneration (lastRun : Option LastRun) (now : Int)
    (inp : PipelineInput) : Option LastRun :=
  if shouldRunNow lastRun now then
    match (runPipeline inp).outcome with
    | .ok results => some (saveLastRun results now)
    | .error _ => none
  else none

/-! ### Helper lemmas -/

theorem splitOnSpaceAux_length (s : List Char) :
    ∀ acc, (splitOnSpaceAux s acc).length = s.count ' ' + 1 := by
  induction s with
  | nil => intro acc; simp [splitOnSpaceAux]
  | cons c rest ih =>
    intro acc
    by_cases hc : c = ' '
    · simp [splitOnSpaceAux, hc, ih, List.count_cons]
    · simp [splitOnSpaceAux, hc, ih, List.count_cons]

theorem splitOnSpace_length (s : List Char) :
    (splitOnSpace s).length = s.count ' ' + 1 :=
  splitOnSpaceAux_length s []

theorem round1_of_wordCount (wc : ℕ) :
    round1 ((wc : ℚ) / 150 * 60) = (wc : ℚ) / 150 * 60 := by
  have h10 : ((wc : ℚ) / 150 * 60) * 10 = ((4 * wc : ℕ) : ℚ) := by
    push_cast
    ring
  have hfloor : jsRound (((4 * wc : ℕ) : ℚ)) = ((4 * wc : ℕ) : ℤ) := by
    rw [jsRound, Int.floor_eq_iff]
    push_cast
    norm_num
  rw [round1, h10, hfloor]
  push_cast
  ring

theorem length_insertByPublishedDesc (x : Article) (l : List Article) :
    (insertByPublishedDesc x l).length = l.length + 1 := by
  induction l with
  | nil => rfl
  | cons y ys ih =>
    by_cases h : y.published < x.published
    · simp [insertByPublishedDesc, h]
    · simp [insertByPublishedDesc, h, ih]

theorem length_sortByPublishedDesc (l : List Article) :
    (sortByPublishedDesc l).length = l.length := by
  induction l with
  | nil => rfl
  | cons x xs ih => simp [sortByPublishedDesc, length_insertByPublishedDesc, ih]

theorem sorted_insertByPublishedDesc (x : Article) (l : List Article)
    (h : SortedByPublishedDesc l) :
    SortedByPublishedDesc (insertByPublishedDesc x l) := by
  induction l with
  | nil => exact trivial
  | cons y ys ih =>
    by_cases hy : y.published < x.published
    · rw [insertByPublishedDesc, if_pos hy]
      rcases ys with _ | ⟨z, zs⟩
      · exact ⟨le_of_lt hy, trivial⟩
      · exact ⟨le_of_lt hy, h⟩
    · rw [insertByPublishedDesc, if_neg hy]
      rcases ys with _ | ⟨z, zs⟩
      · exact ⟨le_of_not_lt hy, trivial⟩
      · rw [insertByPublishedDesc]
        by_cases hz : z.published < x.published
        · rw [if_pos hz]
          exact ⟨le_of_not_lt hy, le_of_lt hz, h.2⟩
        · rw [if_neg hz]
          refine ⟨h.1, ?_⟩
          have := ih h.2
          rwa [insertByPublishedDesc, if_neg hz] at this

theorem sorted_sortByPublishedDesc (l : List Article) :
    SortedByPublishedDesc (sortByPublishedDesc l) := by
  induction l with
  | nil => exact trivial
  | cons x xs ih => exact sorted_insertByPublishedDesc x _ ih

/-! ### C1: script stage word count and estimated duration -/

/-- C1 (amended): for every article list and intro/outro choice, the script
stage's reported word count equals the number of fields obtained by splitting
the assembled text at single space characters — equivalently one plus the
number of space characters — and the estimated duration detail equals
word_count / 150 * 60 seconds exactly (the one-decimal rounding is the
identity on such values). The word count is not the whitespace-delimited
token count. -/
theorem generateScript_word_count_spec (articles : List Article) (introIdx outroIdx : Fin 3) :
    (generateScript articles introIdx outroIdx).details.word_count
      = (generateScript articles introIdx outroIdx).script.count ' ' + 1 ∧
    (generateScript articles introIdx outroIdx).details.estimated_duration_seconds
      = ((generateScript articles introIdx outroIdx).details.word_count : ℚ) / 150 * 60 := by
  constructor
  · exact splitOnSpace_length _
  · exact round1_of_wordCount _

/-- C1 counterexample: on the empty article list with the first intro and
outro, the reported word count is 57 while the assembled script holds 58
whitespace-delimited tokens (the intro is joined to the filler by a blank line
with no space, so `split(' ')` keeps `exploration.\n\nToday` as one field). -/
theorem generateScript_word_count_ne_ws_tokens :
    (generateScript [] 0 0).details.word_count = 57 ∧
    wsTokenCount (generateScript [] 0 0).script = 58 ∧
    (generateScript [] 0 0).details.word_count
      ≠ wsTokenCount (generateScript [] 0 0).script := by
  refine ⟨by decide, by decide, by decide⟩

/-! ### C10: script stage on the empty article list -/

/-- C10: for the empty article list and any intro/outro choice, the script
stage still returns a non-empty script consisting of the chosen intro, the
fixed three-sentence filler passage and the chosen outro, and appends exactly
one successful step-log entry whose details record segments = 0. -/
theorem generateScript_empty_articles (introIdx outroIdx : Fin 3) :
    0 < (generateScript [] introIdx outroIdx).script.length ∧
    (generateScript [] introIdx outroIdx).script
      = intros introIdx ++ ("\n\n").toList ++ emptyArticlesFiller ++ outros outroIdx ∧
    (generateScript [] introIdx outroIdx).logs
      = [{ step := "Script Generation", success := true
           details := .script (generateScript [] introIdx outroIdx).details }] ∧
    (generateScript [] introIdx outroIdx).logs.length = 1 ∧
    (generateScript [] introIdx outroIdx).details.segments = 0 := by
  refine ⟨?_, rfl, rfl, rfl, rfl⟩
  have hintro : 0 < (intros introIdx).length := by
    fin_cases introIdx <;> decide
  have hscript : (generateScript [] introIdx outroIdx).script
      = intros introIdx ++ ("\n\n").toList ++ emptyArticlesFiller ++ outros outroIdx := rfl
  rw [hscript]
  simp [List.length_append]

/-! ### C3: HTTP client rejects every status >= 400 -/

/-- C3: for every response carrying an HTTP status of at least 400, the
request operation fails with the response-error classification carrying that
status; it rejects instead of resolving, so no result — malformed or
otherwise — is returned for such a response. -/
theorem makeHttpRequest_rejects_status_ge_400 {α : Type}
    (status : Nat) (statusMessage : String) (body : α)
    (h : 400 ≤ status) :
    makeHttpRequest (WireOutcome.response status statusMessage body)
      = Except.error (HttpFailure.responseError status statusMessage) := by
  rw [makeHttpRequest, if_pos h]

/-- Witness for C3 at a concrete 500 response. -/
theorem makeHttpRequest_rejects_status_ge_400_witness :
    makeHttpRequest (WireOutcome.response 500 "Internal Server Error"
        (NewsBody.mk none []))
      = Except.error (HttpFailure.responseError 500 "Internal Server Error") :=
  makeHttpRequest_rejects_status_ge_400 500 "Internal Server Error"
    (NewsBody.mk none []) (by decide)

/-! ### C9: corrupt or absent scheduler state is treated as no previous run -/

/-- C9: whenever reading or JSON-parsing the last-run state file fails (the
file is missing, unreadable, or not valid JSON), getLastRunInfo returns none
rather than raising, and shouldRunNow on that result returns true — exactly
the no-previous-run behavior. -/
theorem getLastRunInfo_failure_runs (e : String) (now : Int) :
    getLastRunInfo (Except.error e) = none ∧
    shouldRunNow (getLastRunInfo (Except.error e)) now = true :=
  ⟨rfl, rfl⟩

/-! ### C5: scheduler gating decision -/

/-- C5: shouldRunNow returns false exactly when a previous record exists whose
status is completed and whose timestamp is less than two hours old; in
particular it returns true when the timestamp is exactly three hours old, and
true whenever the previous status is failed, regardless of recency. -/
theorem shouldRunNow_gate (lastRun : Option LastRun) (now : Int) :
    (shouldRunNow lastRun now = false ↔
      ∃ lr, lastRun = some lr ∧ lr.status = "completed" ∧ now - lr.timestamp < twoHoursMs) ∧
    (∀ lr, lastRun = some lr → now - lr.timestamp = 3 * 60 * 60 * 1000 →
      shouldRunNow lastRun now = true) ∧
    (∀ lr, lastRun = some lr → lr.status = "failed" →
      shouldRunNow lastRun now = true) := by
  refine ⟨?_, ?_, ?_⟩
  · cases lastRun with
    | none => simp [shouldRunNow]
    | some lr =>
      by_cases h : now - lr.timestamp < twoHoursMs ∧ lr.status = "completed"
      · simp only [shouldRunNow, if_pos h]
        exact ⟨fun _ => ⟨lr, rfl, h.2, h.1⟩, fun _ => trivial⟩
      · simp only [shouldRunNow, if_neg h]
        constructor
        · intro hfalse; exact absurd hfalse (by simp)
        · rintro ⟨lr', heq, hstatus, htime⟩
          cases heq
          exact absurd ⟨htime, hstatus⟩ h
  · rintro lr rfl htime
    have hnot : ¬(now - lr.timestamp < twoHoursMs ∧ lr.status = "completed") := by
      rintro ⟨hlt, -⟩
      rw [htime, twoHoursMs] at hlt
      omega
    simp only [shouldRunNow, if_neg hnot]
  · rintro lr rfl hstatus
    have hnot : ¬(now - lr.timestamp < twoHoursMs ∧ lr.status = "completed") := by
      rintro ⟨-, hcompleted⟩
      rw [hstatus] at hcompleted
      simp at hcompleted
    simp only [shouldRunNow, if_neg hnot]

/-- Witness for C5 at concrete records: a completed run 30 minutes old gates
the scheduler off, the same record three hours later gates it on, and a
failed run 30 minutes old gates it on. -/
theorem shouldRunNow_gate_witness :
    shouldRunNow (some { timestamp := 0, status := "completed"
                         duration := none, video_url := none }) (30 * 60 * 1000) = false ∧
    shouldRunNow (some { timestamp := 0, status := "completed"
                         duration := none, video_url := none }) (3 * 60 * 60 * 1000) = true ∧
    shouldRunNow (some { timestamp := 0, status := "failed"
                         duration := none, video_url := none }) (30 * 60 * 1000) = true := by
  refine ⟨?_, ?_, ?_⟩
  · exact (shouldRunNow_gate _ (30 * 60 * 1000)).1.mpr
      ⟨_, rfl, rfl, by decide⟩
  · exact (shouldRunNow_gate _ (3 * 60 * 60 * 1000)).2.1 _ rfl (by decide)
  · exact (shouldRunNow_gate _ (30 * 60 * 1000)).2.2 _ rfl rfl

/-! ### C8: news stage fallback on collaborator failure -/

/-- C8: whenever the news request fails (for example the collaborator answers
HTTP 500, which the client turns into a rejection), the news stage substitutes
its fixed placeholder set of exactly three articles, the returned list is
sorted descending by published time, and the single appended step-log entry
records success. -/
theorem collectNews_failure_fallback (wire : WireOutcome NewsBody) (now : Int)
    (e : HttpFailure) (h : makeHttpRequest wire = Except.error e) :
    (collectNews wire now).articles.length = 3 ∧
    SortedByPublishedDesc (collectNews wire now).articles ∧
    (collectNews wire now).logs
      = [{ step := "News Collection", success := true, details := .news 3 }] := by
  have hcollect : collectNews wire now = fallbackNewsResult now := by
    rw [collectNews, h]
  have hlen : (sortByPublishedDesc (fallbackNews now)).length = 3 := by
    rw [length_sortByPublishedDesc]; rfl
  have htake : (sortByPublishedDesc (fallbackNews now)).take 5
      = sortByPublishedDesc (fallbackNews now) :=
    List.take_of_length_le (by rw [hlen]; omega)
  rw [hcollect]
  refine ⟨?_, ?_, ?_⟩
  · show ((sortByPublishedDesc (fallbackNews now)).take 5).length = 3
    rw [htake, hlen]
  · show SortedByPublishedDesc ((sortByPublishedDesc (fallbackNews now)).take 5)
    rw [htake]
    exact sorted_sortByPublishedDesc _
  · simp only [fallbackNewsResult, hlen]

/-- Witness for C8: the collaborator answers HTTP 500 and the fallback set of
three successfully logged articles is returned. -/
theorem collectNews_failure_fallback_witness :
    (collectNews (WireOutcome.response 500 "Internal Server Error" (NewsBody.mk none [])) 0).articles.length = 3 ∧
    SortedByPublishedDesc (collectNews (WireOutcome.response 500 "Internal Server Error" (NewsBody.mk none [])) 0).articles ∧
    (collectNews (WireOutcome.response 500 "Internal Server Error" (NewsBody.mk none [])) 0).logs
      = [{ step := "News Collection", success := true, details := .news 3 }] :=
  collectNews_failure_fallback _ 0 (HttpFailure.responseError 500 "Internal Server Error") rfl

/-! ### C2: media collection padding invariants -/

theorem paddingItems_length (rmc : Bool) (urls : List (List Char)) :
    ∀ index, (paddingItems rmc index urls).length = urls.length := by
  induction urls with
  | nil => intro index; rfl
  | cons u us ih => intro index; simp [paddingItems, ih]

theorem paddingItems_sources (rmc : Bool) (urls : List (List Char)) :
    ∀ index x, x ∈ paddingItems rmc index urls →
      x.source = "curated" ∨ x.source = "simulated" := by
  induction urls with
  | nil => intro index x hx; cases hx
  | cons u us ih =>
    intro index x hx
    rcases List.mem_cons.mp hx with rfl | hx
    · cases rmc
      · right; rfl
      · left; rfl
    · exact ih (index + 1) x hx

theorem pexelsAttempt_sources (pexelsKeyPresent : Bool) (wire : WireOutcome PexelsBody) :
    ∀ x ∈ (pexelsAttempt pexelsKeyPresent wire).1, x.source = "pexels" := by
  intro x hx
  unfold pexelsAttempt at hx
  split at hx
  · split at hx
    · split at hx
      · split at hx
        · rcases List.mem_map.mp hx with ⟨p, -, rfl⟩
          rfl
        · cases hx
      · cases hx
    · cases hx
  · cases hx

/-- C2: every media-collection run returns at least five items; the returned
list is the collected real-collaborator items (all marked pexels) followed by
zero or more fallback items (all marked curated or simulated, the two
fallback source markers), appended only — and padding occurs exactly when
fewer than five real items were collected. -/
theorem collectMedia_min_five (pexelsKeyPresent : Bool) (wire : WireOutcome PexelsBody) :
    5 ≤ (collectMedia pexelsKeyPresent wire).items.length ∧
    ∃ realItems pad,
      (collectMedia pexelsKeyPresent wire).items = realItems ++ pad ∧
      (∀ x ∈ realItems, x.source = "pexels") ∧
      (∀ x ∈ pad, x.source = "curated" ∨ x.source = "simulated") ∧
      (5 ≤ realItems.length → pad = []) := by
  have hsources := pexelsAttempt_sources pexelsKeyPresent wire
  set real := pexelsAttempt pexelsKeyPresent wire with hreal
  rw [collectMedia, ← hreal, collectMediaCore]
  simp only
  by_cases hlt : real.1.length < 5
  · rw [if_pos hlt]
    constructor
    · rw [List.length_append, paddingItems_length]
      have : simulatedImages.length = 5 := rfl
      omega
    · exact ⟨real.1, paddingItems real.2 0 simulatedImages, rfl, hsources,
        fun x hx => paddingItems_sources real.2 simulatedImages 0 x hx,
        fun h5 => absurd hlt (by omega)⟩
  · rw [if_neg hlt]
    constructor
    · omega
    · exact ⟨real.1, [], (List.append_nil _).symm, hsources,
        fun x hx => absurd hx (List.not_mem_nil x),
        fun _ => rfl⟩

/-- Witness for C2: with no API key and an unreachable collaborator, the run
still returns at least five items. -/
theorem collectMedia_min_five_witness :
    5 ≤ (collectMedia false (WireOutcome.requestError "connect ECONNREFUSED")).items.length :=
  (collectMedia_min_five false (WireOutcome.requestError "connect ECONNREFUSED")).1

/-! ### C4 and C7: orchestrator failure handling and record invariants -/

theorem failRun_spec (r : RunRecord) (message : String) :
    (failRun r message).record.status = "failed" ∧
    (failRun r message).record.error = some message ∧
    (failRun r message).persisted = some (failRun r message).record ∧
    (failRun r message).outcome = Except.error message :=
  ⟨rfl, rfl, rfl, rfl⟩

/-- C4: whenever a stage raises an error that its own fallback logic does not
handle, the run's status becomes failed, the triggering error's message is
recorded in the record's error field, the partially filled record is persisted
(the persisted document is exactly the final record), and the same error is
re-raised to the caller. -/
theorem runPipeline_uncaught_fault (inp : PipelineInput) (m : String)
    (h : firstFault inp.faults = some m) :
    (runPipeline inp).record.status = "failed" ∧
    (runPipeline inp).record.error = some m ∧
    (runPipeline inp).persisted = some (runPipeline inp).record ∧
    (runPipeline inp).outcome = Except.error m := by
  rw [firstFault] at h
  cases henv : inp.faults.envFault with
  | some m0 =>
    rw [henv] at h
    cases h
    simp only [runPipeline, henv]
    exact failRun_spec _ _
  | none =>
    rw [henv] at h
    cases hnews : inp.faults.newsFault with
    | some m0 =>
      rw [hnews] at h
      cases h
      simp only [runPipeline, henv, hnews]
      exact failRun_spec _ _
    | none =>
      rw [hnews] at h
      cases hscript : inp.faults.scriptFault with
      | some m0 =>
        rw [hscript] at h
        cases h
        simp only [runPipeline, henv, hnews, hscript]
        exact failRun_spec _ _
      | none =>
        rw [hscript] at h
        cases hmedia : inp.faults.mediaFault with
        | some m0 =>
          rw [hmedia] at h
          cases h
          simp only [runPipeline, henv, hnews, hscript, hmedia]
          exact failRun_spec _ _
        | none =>
          rw [hmedia] at h
          cases htts : inp.faults.ttsFault with
          | some m0 =>
            rw [htts] at h
            cases h
            simp only [runPipeline, henv, hnews, hscript, hmedia, htts]
            exact failRun_spec _ _
          | none =>
            rw [htts] at h
            cases hvideo : inp.faults.videoFault with
            | some m0 =>
              rw [hvideo] at h
              cases h
              simp only [runPipeline, henv, hnews, hscript, hmedia, htts, hvideo]
              exact failRun_spec _ _
            | none =>
              rw [hvideo] at h
              cases h

/-- Shared concrete pipeline input: no credentials, both collaborators down,
no injected faults. -/
def offlineInput : PipelineInput :=
  { env := { ttsConfigured := false, pexelsConfigured := false, unsplashConfigured := false }
    newsWire := WireOutcome.response 500 "Internal Server Error" (NewsBody.mk none [])
    pexelsKeyPresent := false
    pexelsWire := WireOutcome.requestError "connect ECONNREFUSED"
    ttsKeyPresent := false
    introIdx := 0
    outroIdx := 0
    now := 0
    startTime := 1000
    endTime := 6000
    faults := { envFault := none, newsFault := none, scriptFault := none
                mediaFault := none, ttsFault := none, videoFault := none } }

/-- Shared concrete pipeline input whose news stage raises an uncaught
error. -/
def faultyInput : PipelineInput :=
  { offlineInput with
    faults := { envFault := none, newsFault := some "boom", scriptFault := none
                mediaFault := none, ttsFault := none, videoFault := none } }

/-- Witness for C4 at a concrete faulty run. -/
theorem runPipeline_uncaught_fault_witness :
    (runPipeline faultyInput).record.status = "failed" ∧
    (runPipeline faultyInput).record.error = some "boom" ∧
    (runPipeline faultyInput).persisted = some (runPipeline faultyInput).record ∧
    (runPipeline faultyInput).outcome = Except.error "boom" :=
  runPipeline_uncaught_fault faultyInput "boom" rfl

/-- C7: for every run, a final record with status completed has final_outputs
present and error absent, and a final record with status failed has error
present. -/
theorem runPipeline_status_invariants (inp : PipelineInput) :
    ((runPipeline inp).record.status = "completed" →
      ((runPipeline inp).record.final_outputs).isSome = true ∧
      (runPipeline inp).record.error = none) ∧
    ((runPipeline inp).record.status = "failed" →
      ((runPipeline inp).record.error).isSome = true) := by
  cases henv : inp.faults.envFault with
  | some m0 => simp [runPipeline, henv, failRun]
  | none =>
    cases hnews : inp.faults.newsFault with
    | some m0 => simp [runPipeline, henv, hnews, failRun]
    | none =>
      cases hscript : inp.faults.scriptFault with
      | some m0 => simp [runPipeline, henv, hnews, hscript, failRun]
      | none =>
        cases hmedia : inp.faults.mediaFault with
        | some m0 => simp [runPipeline, henv, hnews, hscript, hmedia, failRun]
        | none =>
          cases htts : inp.faults.ttsFault with
          | some m0 => simp [runPipeline, henv, hnews, hscript, hmedia, htts, failRun]
          | none =>
            cases hvideo : inp.faults.videoFault with
            | some m0 => simp [runPipeline, henv, hnews, hscript, hmedia, htts, hvideo, failRun]
            | none => simp [runPipeline, henv, hnews, hscript, hmedia, htts, hvideo]

/-- Witness for C7 at a concrete completed run. -/
theorem runPipeline_status_invariants_witness :
    ((runPipeline offlineInput).record.final_outputs).isSome = true ∧
    (runPipeline offlineInput).record.error = none :=
  (runPipeline_status_invariants offlineInput).1 rfl

/-! ### C6: scheduler persistence of the last-run record -/

/-- C6 counterexample: with no previous record the gate is open, the pipeline
run fails (runPipeline re-raises), and the scheduler writes nothing — the
LastRunRecord is not overwritten after a failed run, contrary to the claim. -/
theorem scheduler_failed_run_writes_nothing :
    shouldRunNow none 0 = true ∧
    (runPipeline faultyInput).record.status = "failed" ∧
    runScheduledVideoGeneration none 0 faultyInput = none :=
  ⟨rfl, rfl, rfl⟩

/-- C6 (amended): for every scheduler invocation that passes the gate, the
LastRunRecord is overwritten with the run's outcome exactly when runPipeline
returns normally (which only happens with status completed); when the run
fails, runPipeline throws, the catch block merely logs, and the stored record
is left untouched. -/
theorem scheduler_saves_only_returned_runs (lastRun : Option LastRun) (now : Int)
    (inp : PipelineInput) (h : shouldRunNow lastRun now = true) :
    (∀ results, (runPipeline inp).outcome = Except.ok results →
      runScheduledVideoGeneration lastRun now inp = some (saveLastRun results now)) ∧
    (∀ m, (runPipeline inp).outcome = Except.error m →
      runScheduledVideoGeneration lastRun now inp = none) := by
  constructor
  · intro results hok
    rw [runScheduledVideoGeneration, if_pos h, hok]
  · intro m herr
    rw [runScheduledVideoGeneration, if_pos h, herr]

/-- Witness for C6 (amended): a successful offline run is saved; a faulty run
leaves the record untouched. -/
theorem scheduler_saves_only_returned_runs_witness :
    runScheduledVideoGeneration none 0 offlineInput
      = some (saveLastRun (runPipeline offlineInput).record 0) ∧
    runScheduledVideoGeneration none 0 faultyInput = none := by
  constructor
  · exact (scheduler_saves_only_returned_runs none 0 offlineInput rfl).1
      (runPipeline offlineInput).record rfl
  · exact (scheduler_saves_only_returned_runs none 0 faultyInput rfl).2 "boom" rfl
